import Mathlib

/-!
Shallow embedding of the icon-generation scripts of `gpu-temp-watch`
(`src/create_icon.py` and `src/create_temperature_icons.py`) and of the
ICO encoder contract described by the specification, together with
theorems settling the specification claims about them.

Both scripts build a single-image 16x16, 32-bits-per-pixel ICO byte
stream by concatenating a 6-byte icon header, a 16-byte directory entry,
a 40-byte bitmap info header (all packed little-endian via `struct.pack`)
and the raw BGRA pixel bytes.  Byte streams are modelled as `List Nat`
with every element a byte value.
-/

set_option maxRecDepth 8000

/-- Format `B` of `struct.pack`: one unsigned byte (callers pass in-range
values; the `% 256` mirrors the byte truncation convention of the format). -/
def u8 (n : Nat) : List Nat := [n % 256]

/-- Format `<H` of `struct.pack`: unsigned 16-bit, little-endian. -/
def le16 (n : Nat) : List Nat := [n % 256, n / 256 % 256]

/-- Format `<L` of `struct.pack`: unsigned 32-bit, little-endian. -/
def le32 (n : Nat) : List Nat :=
  [n % 256, n / 256 % 256, n / 65536 % 256, n / 16777216 % 256]

/-- Read the unsigned 32-bit little-endian value stored at offset `off`
of the byte stream `b` (out-of-range reads see byte 0). -/
def readLE32 (b : List Nat) (off : Nat) : Nat :=
  b.getD off 0 + 256 * b.getD (off + 1) 0 + 65536 * b.getD (off + 2) 0
    + 16777216 * b.getD (off + 3) 0

/-- Pixel rule of `create_simple_ico` (src/create_icon.py, lines 41-59):
the BGRA quadruple emitted for coordinate `(x, y)`.  The conditionals are
taken branch for branch from the Python `if/elif` chain. -/
def simplePixel (x y : Nat) : List Nat :=
  if x = 8 ∧ y < 12 then [0, 0, 255, 255]
  else if (x = 7 ∨ x = 9) ∧ y < 12 then [0, 0, 0, 255]
  else if 6 ≤ x ∧ x ≤ 10 ∧ 12 ≤ y ∧ y ≤ 14 then [0, 0, 255, 255]
  else if 5 ≤ x ∧ x ≤ 11 ∧ 11 ≤ y ∧ y ≤ 15 then [0, 0, 0, 255]
  else [0, 0, 0, 0]

/-- The `image_data` bytearray of `create_simple_ico`: the pixel quadruples
for `y` in `range(16)`, `x` in `range(16)`, concatenated in loop order. -/
def simpleImageData : List Nat :=
  (List.range 16).flatMap (fun y => (List.range 16).flatMap (fun x => simplePixel x y))

/-- The pixel quadruples of `create_simple_ico` in loop order, kept as a
list of 4-byte pixels (their concatenation is `simpleImageData`). -/
def simpleQuads : List (List Nat) :=
  (List.range 16).flatMap (fun y => (List.range 16).map (fun x => simplePixel x y))

/-- Function `create_simple_ico` (src/create_icon.py): the returned `ico_data` bytes,
`ico_header + dir_entry + bmp_header + image_data` with the constants of the
source (`width = height = 16`, `colors = 0`, `planes = 1`, `bpp = 32`,
`size = 40 + width*height*4`, `offset = 22`). -/
def create_simple_ico : List Nat :=
  (le16 0 ++ le16 1 ++ le16 1)
    ++ (u8 16 ++ u8 16 ++ u8 0 ++ u8 0 ++ le16 1 ++ le16 32
        ++ le32 (40 + 16 * 16 * 4) ++ le32 22)
    ++ (le32 40 ++ le32 16 ++ le32 (16 * 2) ++ le16 1 ++ le16 32 ++ le32 0
        ++ le32 (16 * 16 * 4) ++ le32 0 ++ le32 0 ++ le32 0 ++ le32 0)
    ++ simpleImageData

/-- Pixel rule of `create_colored_ico` (src/create_temperature_icons.py,
lines 41-59): identical to `simplePixel` except that the tube and bulb
branches emit the caller-supplied `color_bgra` list. -/
def coloredPixel (c : List Nat) (x y : Nat) : List Nat :=
  if x = 8 ∧ y < 12 then c
  else if (x = 7 ∨ x = 9) ∧ y < 12 then [0, 0, 0, 255]
  else if 6 ≤ x ∧ x ≤ 10 ∧ 12 ≤ y ∧ y ≤ 14 then c
  else if 5 ≤ x ∧ x ≤ 11 ∧ 11 ≤ y ∧ y ≤ 15 then [0, 0, 0, 255]
  else [0, 0, 0, 0]

/-- The per-pixel quadruples of `create_colored_ico` in loop order
(`y` in `range(16)`, `x` in `range(16)`). -/
def coloredQuads (c : List Nat) : List (List Nat) :=
  (List.range 16).flatMap (fun y => (List.range 16).map (fun x => coloredPixel c x y))

/-- The `image_data` bytearray of `create_colored_ico`: the pixel
quadruples concatenated. -/
def coloredImageData (c : List Nat) : List Nat := (coloredQuads c).flatten

/-- Function `create_colored_ico` (src/create_temperature_icons.py): the `ico_data`
byte stream built for a given `color_bgra`.  The headers are the same
constants as in `create_simple_ico`.  `bytearray.extend` raises
`ValueError` when an element of `color_bgra` is not a byte value, which the
embedding models as an `Except.error`; the file write that follows the
construction is I/O performed by the caller side of the script and is not
part of the byte-stream construction modelled here. -/
def create_colored_ico (c : List Nat) : Except String (List Nat) :=
  if c.all (fun b => b < 256) then
    Except.ok
      ((le16 0 ++ le16 1 ++ le16 1)
        ++ (u8 16 ++ u8 16 ++ u8 0 ++ u8 0 ++ le16 1 ++ le16 32
            ++ le32 (40 + 16 * 16 * 4) ++ le32 22)
        ++ (le32 40 ++ le32 16 ++ le32 (16 * 2) ++ le16 1 ++ le16 32 ++ le32 0
            ++ le32 (16 * 16 * 4) ++ le32 0 ++ le32 0 ++ le32 0 ++ le32 0)
        ++ coloredImageData c)
  else Except.error "ValueError: byte must be in range(0, 256)"

/-- Modelled from the spec: the generalized single-image ICO encoder
`encode(width, height, pixels)` of spec section 4.1.  The repository source
only contains the fixed 16x16 instantiations (`create_simple_ico`,
`create_colored_ico`); this definition follows the field list of the spec
(sections 4.1 and 6) with the same `struct.pack` little-endian layouts as
the source, the one-byte width/height fields using the format convention
that values are truncated to one byte (256 encoded as 0). -/
def encode (width height : Nat) (pixels : List Nat) : List Nat :=
  (le16 0 ++ le16 1 ++ le16 1)
    ++ (u8 width ++ u8 height ++ u8 0 ++ u8 0 ++ le16 1 ++ le16 32
        ++ le32 (40 + width * height * 4) ++ le32 22)
    ++ (le32 40 ++ le32 width ++ le32 (height * 2) ++ le16 1 ++ le16 32 ++ le32 0
        ++ le32 (width * height * 4) ++ le32 0 ++ le32 0 ++ le32 0 ++ le32 0)
    ++ pixels

/-- Modelled from the spec: a reference ICO decoder reading the declared
headers per the file-format table of spec section 6 — it checks the 6-byte
icon header `00 00 01 00 01 00`, reads the declared width and height from
the one-byte directory-entry fields at offsets 6 and 7, and takes the pixel
bytes from offset 62 on, requiring them to fill `width*height*4` bytes. -/
def decode (b : List Nat) : Option (Nat × Nat × List Nat) :=
  if b.take 6 = [0, 0, 1, 0, 1, 0] ∧ 62 ≤ b.length then
    let w := b.getD 6 0
    let h := b.getD 7 0
    let px := b.drop 62
    if px.length = w * h * 4 then some (w, h, px) else none
  else none

/-! ### Helper lemmas -/

lemma list_length_eq_four {c : List Nat} (h : c.length = 4) :
    ∃ b g r a, c = [b, g, r, a] := by
  match c, h with
  | [b, g, r, a], _ => exact ⟨b, g, r, a, rfl⟩

lemma encode_length (W H : Nat) (p : List Nat) :
    (encode W H p).length = 62 + p.length := by
  simp [encode, u8, le16, le32]
  omega

lemma coloredPixel_cases (c : List Nat) (x y : Nat) :
    coloredPixel c x y = c ∨ coloredPixel c x y = [0, 0, 0, 255]
      ∨ coloredPixel c x y = [0, 0, 0, 0] := by
  unfold coloredPixel
  split
  · exact Or.inl rfl
  split
  · exact Or.inr (Or.inl rfl)
  split
  · exact Or.inl rfl
  split
  · exact Or.inr (Or.inl rfl)
  · exact Or.inr (Or.inr rfl)

lemma mem_coloredQuads {c : List Nat} {q : List Nat} (h : q ∈ coloredQuads c) :
    ∃ x y, q = coloredPixel c x y := by
  simp only [coloredQuads, List.mem_flatMap, List.mem_map] at h
  obtain ⟨y, _, x, _, rfl⟩ := h
  exact ⟨x, y, rfl⟩

/-! ### Claim theorems -/

/-- C1: for every width and height in 1..255 and every pixel buffer of
exactly `W*H*4` bytes, the encoder output has length exactly `62 + W*H*4`;
in particular the fixed 16x16 functions `create_simple_ico` and
`create_colored_ico` (with a 4-byte color of valid byte values) produce
exactly 1086 bytes. -/
theorem encode_output_length (W H : Nat) (p c : List Nat)
    (hW1 : 1 ≤ W) (hW : W ≤ 255) (hH1 : 1 ≤ H) (hH : H ≤ 255)
    (hp : p.length = W * H * 4)
    (hc : c.length = 4) (hcb : c.all (fun b => b < 256) = true) :
    (encode W H p).length = 62 + W * H * 4
    ∧ create_simple_ico.length = 1086
    ∧ ∃ out, create_colored_ico c = Except.ok out ∧ out.length = 1086 := by
  refine ⟨?_, by decide, ?_⟩
  · rw [encode_length, hp]
  · obtain ⟨b, g, r, a, rfl⟩ := list_length_eq_four hc
    unfold create_colored_ico
    rw [if_pos hcb]
    exact ⟨_, rfl, by rfl⟩

/-- Witness for C1 at concrete inputs. -/
theorem encode_output_length_witness :
    (encode 16 16 (List.replicate 1024 7)).length = 62 + 16 * 16 * 4
    ∧ create_simple_ico.length = 1086
    ∧ ∃ out, create_colored_ico [0, 255, 0, 255] = Except.ok out ∧ out.length = 1086 :=
  encode_output_length 16 16 (List.replicate 1024 7) [0, 255, 0, 255]
    (by decide) (by decide) (by decide) (by decide) (by simp) (by decide) (by decide)

/-- C2: in every stream the encoder produces, the little-endian 32-bit
directory-entry field at offset 14 (imageSize) equals `40 + W*H*4`, the
field at offset 18 (dataOffset) equals 22, and the bitmap-info-header
field at offset 30 (biHeight) equals `2*H`; likewise in the streams of
the fixed 16x16 source functions. -/
theorem encode_header_field_values (W H : Nat) (p c out : List Nat)
    (hW : W ≤ 255) (hH : H ≤ 255)
    (hok : create_colored_ico c = Except.ok out) :
    (readLE32 (encode W H p) 14 = 40 + W * H * 4
      ∧ readLE32 (encode W H p) 18 = 22
      ∧ readLE32 (encode W H p) 30 = 2 * H)
    ∧ (readLE32 create_simple_ico 14 = 40 + 16 * 16 * 4
      ∧ readLE32 create_simple_ico 18 = 22
      ∧ readLE32 create_simple_ico 30 = 2 * 16)
    ∧ (readLE32 out 14 = 40 + 16 * 16 * 4
      ∧ readLE32 out 18 = 22
      ∧ readLE32 out 30 = 2 * 16) := by
  refine ⟨⟨?_, by rfl, ?_⟩, by decide, ?_⟩
  · have h1 : readLE32 (encode W H p) 14 =
        (40 + W * H * 4) % 256 + 256 * ((40 + W * H * 4) / 256 % 256)
          + 65536 * ((40 + W * H * 4) / 65536 % 256)
          + 16777216 * ((40 + W * H * 4) / 16777216 % 256) := rfl
    have h2 : W * H ≤ 65025 := Nat.mul_le_mul hW hH
    rw [h1]
    omega
  · have h1 : readLE32 (encode W H p) 30 =
        (H * 2) % 256 + 256 * ((H * 2) / 256 % 256)
          + 65536 * ((H * 2) / 65536 % 256)
          + 16777216 * ((H * 2) / 16777216 % 256) := rfl
    rw [h1]
    omega
  · unfold create_colored_ico at hok
    split at hok
    · cases hok
      exact ⟨by rfl, by rfl, by rfl⟩
    · cases hok

/-- Witness for C2 at concrete inputs. -/
theorem encode_header_field_values_witness :
    (readLE32 (encode 16 16 []) 14 = 40 + 16 * 16 * 4
      ∧ readLE32 (encode 16 16 []) 18 = 22
      ∧ readLE32 (encode 16 16 []) 30 = 2 * 16)
    ∧ (readLE32 create_simple_ico 14 = 40 + 16 * 16 * 4
      ∧ readLE32 create_simple_ico 18 = 22
      ∧ readLE32 create_simple_ico 30 = 2 * 16)
    ∧ (readLE32 create_simple_ico 14 = 40 + 16 * 16 * 4
      ∧ readLE32 create_simple_ico 18 = 22
      ∧ readLE32 create_simple_ico 30 = 2 * 16) :=
  encode_header_field_values 16 16 [] [0, 0, 255, 255] create_simple_ico
    (by decide) (by decide) (by rfl)

/-- C3: the bytes from offset 62 to the end of the encoder output are the
input pixel buffer verbatim; for the source functions, they are exactly the
generated `image_data` bytes. -/
theorem pixels_appended_verbatim (W H : Nat) (p c out : List Nat)
    (hok : create_colored_ico c = Except.ok out) :
    (encode W H p).drop 62 = p
    ∧ create_simple_ico.drop 62 = simpleImageData
    ∧ out.drop 62 = coloredImageData c := by
  refine ⟨rfl, rfl, ?_⟩
  unfold create_colored_ico at hok
  split at hok
  · cases hok
    rfl
  · cases hok

/-- Witness for C3 at concrete inputs. -/
theorem pixels_appended_verbatim_witness :
    (encode 1 1 [9, 8, 7, 6]).drop 62 = [9, 8, 7, 6]
    ∧ create_simple_ico.drop 62 = simpleImageData
    ∧ create_simple_ico.drop 62 = coloredImageData [0, 0, 255, 255] :=
  pixels_appended_verbatim 1 1 [9, 8, 7, 6] [0, 0, 255, 255] create_simple_ico (by rfl)

/-- C4: encoding is deterministic — equal inputs give byte-identical
output streams, for the spec encoder and for both source functions. -/
theorem encoding_deterministic (W W' H H' : Nat) (p p' c c' : List Nat)
    (hW : W = W') (hH : H = H') (hp : p = p') (hc : c = c') :
    encode W H p = encode W' H' p'
    ∧ create_colored_ico c = create_colored_ico c'
    ∧ create_simple_ico = create_simple_ico := by
  subst hW hH hp hc
  exact ⟨rfl, rfl, rfl⟩

/-- Witness for C4 at concrete inputs. -/
theorem encoding_deterministic_witness :
    encode 16 16 [1, 2, 3, 4] = encode 16 16 [1, 2, 3, 4]
    ∧ create_colored_ico [0, 165, 255, 255] = create_colored_ico [0, 165, 255, 255]
    ∧ create_simple_ico = create_simple_ico :=
  encoding_deterministic 16 16 16 16 [1, 2, 3, 4] [1, 2, 3, 4]
    [0, 165, 255, 255] [0, 165, 255, 255] rfl rfl rfl rfl

/-- C5 counterexample: `create_colored_ico` performs no buffer-size
validation.  Called with the 3-byte color `[0, 0, 0]` — so the generated
pixel data has 997 bytes instead of `16*16*4 = 1024` — it still succeeds
and returns a stream, rather than failing with a PixelBufferSizeMismatch
error. -/
theorem create_colored_ico_no_mismatch_error :
    ([0, 0, 0] : List Nat).length ≠ 4
    ∧ (coloredImageData [0, 0, 0]).length = 997
    ∧ (997 : Nat) ≠ 16 * 16 * 4
    ∧ (create_colored_ico [0, 0, 0]).isOk = true :=
  ⟨by decide, by rfl, by decide, by rfl⟩

/-- C5 amended: the encoder functions perform no validation — width and
height are fixed at 16 (an InvalidDimension error cannot arise) and
`create_colored_ico` accepts a `color_bgra` of any length without a size
check; the construction succeeds exactly when every element of
`color_bgra` is a valid byte value, failing only with the ValueError that
`bytearray.extend` raises on an out-of-range element. -/
theorem create_colored_ico_no_validation (c : List Nat) :
    (create_colored_ico c).isOk = true ↔ c.all (fun b => b < 256) = true := by
  unfold create_colored_ico
  split
  · next h => simp [Except.isOk, Except.toBool, h]
  · next h => simp [Except.isOk, Except.toBool, h]

/-- C6 counterexample: the pixel data of `create_simple_ico` is not made
of bytes alternating between `[0,0,0,0]` and `[0,0,255,255]` only — the
pixel at `(x, y) = (7, 0)` (byte offset `62 + 4*7` of the stream) is the
dark outline value `[0, 0, 0, 255]`, which is neither of the two. -/
theorem simple_pattern_not_two_valued :
    (create_simple_ico.drop (62 + 4 * 7)).take 4 = [0, 0, 0, 255]
    ∧ ¬(([0, 0, 0, 255] : List Nat) = [0, 0, 0, 0]
        ∨ ([0, 0, 0, 255] : List Nat) = [0, 0, 255, 255]) :=
  ⟨by decide, by decide⟩

/-- C6 amended: for the 16x16 documented thermometer pattern — 1024 pixel
bytes whose 4-byte pixels are each `[0,0,0,0]` (transparent),
`[0,0,255,255]` (opaque red in BGRA) or `[0,0,0,255]` (opaque black
outline) — the output of `create_simple_ico` is exactly 1086 bytes with
bytes 0..5 = `00 00 01 00 01 00`, bytes 6..7 = `10 10` and
bytes 12..13 = `20 00`. -/
theorem simple_ico_concrete_bytes :
    create_simple_ico.length = 1086
    ∧ create_simple_ico.take 6 = [0, 0, 1, 0, 1, 0]
    ∧ (create_simple_ico.drop 6).take 2 = [16, 16]
    ∧ (create_simple_ico.drop 12).take 2 = [32, 0]
    ∧ simpleImageData.length = 1024
    ∧ simpleImageData = simpleQuads.flatten
    ∧ simpleQuads.all
        (fun q => q = [0, 0, 0, 0] || q = [0, 0, 255, 255] || q = [0, 0, 0, 255]) = true :=
  ⟨by decide, by decide, by decide, by decide, by decide, by decide, by decide⟩

/-- C7: round-trip — decoding the encoder output with the reference
decoder of the spec recovers the declared width, the declared height and
the exact input pixel buffer. -/
theorem decode_encode_roundtrip (W H : Nat) (p : List Nat)
    (hW1 : 1 ≤ W) (hW : W ≤ 255) (hH1 : 1 ≤ H) (hH : H ≤ 255)
    (hp : p.length = W * H * 4) :
    decode (encode W H p) = some (W, H, p) := by
  have htake : (encode W H p).take 6 = [0, 0, 1, 0, 1, 0] := rfl
  have hlen : (encode W H p).length = 62 + p.length := encode_length W H p
  have h6 : (encode W H p).getD 6 0 = W % 256 := rfl
  have h7 : (encode W H p).getD 7 0 = H % 256 := rfl
  have hdrop : (encode W H p).drop 62 = p := rfl
  have hWm : W % 256 = W := Nat.mod_eq_of_lt (by omega)
  have hHm : H % 256 = H := Nat.mod_eq_of_lt (by omega)
  unfold decode
  rw [htake, hlen, h6, h7, hdrop, hWm, hHm, if_pos ⟨rfl, by omega⟩, if_pos hp]

/-- Witness for C7 at a concrete input. -/
theorem decode_encode_roundtrip_witness :
    decode (encode 1 1 [9, 8, 7, 6]) = some (1, 1, [9, 8, 7, 6]) :=
  decode_encode_roundtrip 1 1 [9, 8, 7, 6]
    (by decide) (by decide) (by decide) (by decide) (by decide)

/-- C8: the stream built by `create_colored_ico` for the red color
`[0, 0, 255, 255]` is byte-for-byte the stream returned by
`create_simple_ico`. -/
theorem colored_refines_simple :
    create_colored_ico [0, 0, 255, 255] = Except.ok create_simple_ico := by rfl

/-- C9: every pixel quadruple generated by `create_colored_ico` is the
given `color_bgra`, the opaque black outline `[0,0,0,255]`, or the fully
transparent `[0,0,0,0]`; hence when the color has alpha byte 255, every
pixel alpha byte is 0 or 255. -/
theorem colored_pixel_values (c q : List Nat) (hq : q ∈ coloredQuads c) :
    (q = c ∨ q = [0, 0, 0, 255] ∨ q = [0, 0, 0, 0])
    ∧ (c.getD 3 0 = 255 → q.getD 3 0 = 0 ∨ q.getD 3 0 = 255) := by
  obtain ⟨x, y, rfl⟩ := mem_coloredQuads hq
  rcases coloredPixel_cases c x y with h | h | h <;> rw [h]
  · exact ⟨Or.inl rfl, fun ha => Or.inr ha⟩
  · exact ⟨Or.inr (Or.inl rfl), fun _ => Or.inr rfl⟩
  · exact ⟨Or.inr (Or.inr rfl), fun _ => Or.inl rfl⟩

/-- Witness for C9 at a concrete pixel of a concrete color. -/
theorem colored_pixel_values_witness :
    (([0, 0, 0, 0] : List Nat) = [0, 0, 255, 255]
      ∨ ([0, 0, 0, 0] : List Nat) = [0, 0, 0, 255]
      ∨ ([0, 0, 0, 0] : List Nat) = [0, 0, 0, 0])
    ∧ (([0, 0, 255, 255] : List Nat).getD 3 0 = 255 →
        ([0, 0, 0, 0] : List Nat).getD 3 0 = 0 ∨ ([0, 0, 0, 0] : List Nat).getD 3 0 = 255) :=
  colored_pixel_values [0, 0, 255, 255] [0, 0, 0, 0] (by decide)

/-- C10: the first 62 bytes of the stream built by `create_colored_ico`
do not depend on the `color_bgra` argument — any two successful runs agree
on offsets 0 through 61. -/
theorem colored_headers_independent_of_color (c c' out out' : List Nat)
    (h : create_colored_ico c = Except.ok out)
    (h' : create_colored_ico c' = Except.ok out') :
    out.take 62 = out'.take 62 := by
  unfold create_colored_ico at h h'
  split at h
  · cases h
    split at h'
    · cases h'
      rfl
    · cases h'
  · cases h

/-- Witness for C10 at two concrete colors. -/
theorem colored_headers_independent_of_color_witness :
    ((create_colored_ico [0, 255, 0, 255]).toOption.getD []).take 62
      = ((create_colored_ico [0, 0, 255, 255]).toOption.getD []).take 62 :=
  colored_headers_independent_of_color [0, 255, 0, 255] [0, 0, 255, 255]
    ((create_colored_ico [0, 255, 0, 255]).toOption.getD [])
    ((create_colored_ico [0, 0, 255, 255]).toOption.getD [])
    (by rfl) (by rfl)
